import Mathlib

/-!
# Formal model of the AR viewer repository

Shallow embedding of the repository's observable behaviour:

* `ARScene` — the React component in `src/components/ARScene.tsx`.  Its
  `useEffect` body, the asynchronous continuations of `initAR`, the
  render-loop body `animate`, and the effect cleanup are embedded as a step
  function on a `World`: the shared display surface (the canvas and its
  `data-initialized` attribute) together with the list of effect-run
  instances, each holding the closure variables of one `useEffect` run
  (`isMounted`, `renderer`, `arToolkitSource`, …).  Asynchronous resolution
  (script `onload`/`onerror`, `ArToolkitSource.init`, `ArToolkitContext.init`,
  `GLTFLoader.load`, `setTimeout`, `requestAnimationFrame`, window `resize`)
  is driven by an environment-chosen event list; JavaScript's single-threaded
  event loop is reflected in each event being one atomic step, so a callback
  never runs inside the synchronous block that registered it.
* `serverRequestHandler` — the request handler installed by `createServer`
  in `server.js`: a `try`/`catch` around URL parsing and the framework's
  `handle`, converting any thrown error into a 500 response.

External library effects are abstracted to the fields of the state they
touch: `ArToolkitSource.init` attaches the webcam stream and sets `ready`,
`ArToolkitContext.init`'s completion callback copies the projection matrix
(counted by `projectionCopies`), `context.update` sets the camera's
visibility from the detection result, marker controls and lights are
recorded as booleans, and `onResize` executions are counted by `resizeRuns`.
-/

namespace ARModel

/-- Where one `useEffect` run (one call of `initAR`) stands in its
initialization sequence.  `loadingScript1`/`loadingScript2` are the two
`await loadScript …` suspensions; `ready` means the main setup block after
the awaits has run; the `aborted…` phases are the three early returns in
`initAR` (catch of a script-load failure, missing `THREEx` entry points,
and the `!isMounted || !canvasRef.current` check). -/
inductive Phase where
  | loadingScript1
  | loadingScript2
  | ready
  | abortedScriptError
  | abortedNoEntry
  | abortedUnmounted
  deriving DecidableEq, Repr

/-- The `ArToolkitSource` object: its `ready` flag, whether the webcam
stream has been attached to its video element (`domElement.srcObject`),
and whether the stream's media tracks are still live. -/
structure SourceState where
  ready : Bool
  hasStream : Bool
  tracksLive : Bool
  deriving DecidableEq, Repr

/-- The `THREE.WebGLRenderer` object: whether `dispose()` has been called. -/
structure RendererState where
  disposed : Bool
  deriving DecidableEq, Repr

/-- The closure state of one `useEffect` run of `ARScene`, i.e. the `let`
variables of the effect body plus the observable effects of `initAR`.
`renders` logs, per issued `renderer.render` call, the value of
`scene.visible` at that call.  `projectionCopies` counts executions of the
`ArToolkitContext.init` completion callback (`camera.projectionMatrix.copy`),
`resizeRuns` counts executions of `onResize`, `errorsLogged` counts
`console.error` calls. -/
structure Inst where
  isMounted : Bool
  phase : Phase
  renderer : Option RendererState
  arToolkitSource : Option SourceState
  arToolkitContext : Bool
  pendingFrame : Bool
  pendingSourceInit : Bool
  pendingContextInit : Bool
  pendingModelLoad : Bool
  pendingTimeout : Bool
  resizeListener : Bool
  resizeRuns : Nat
  projectionCopies : Nat
  markerControlsAttached : Bool
  modelAdded : Bool
  lightsAdded : Bool
  cameraVisible : Bool
  sceneVisible : Bool
  renders : List Bool
  errorsLogged : Nat
  deriving DecidableEq, Repr

/-- The closure state right after the effect body passed its guards and
`initAR` issued `loadScript(ar.js)`: every handle still `undefined`
(`none`/`false`), the first script load in flight. -/
def newInst : Inst :=
  { isMounted := true
    phase := .loadingScript1
    renderer := none
    arToolkitSource := none
    arToolkitContext := false
    pendingFrame := false
    pendingSourceInit := false
    pendingContextInit := false
    pendingModelLoad := false
    pendingTimeout := false
    resizeListener := false
    resizeRuns := 0
    projectionCopies := 0
    markerControlsAttached := false
    modelAdded := false
    lightsAdded := false
    cameraVisible := true
    sceneVisible := true
    renders := []
    errorsLogged := 0 }

/-- The body of `animate`, lines 158–164: an early return when
`!isMounted || !arToolkitSource.ready`, else `requestAnimationFrame(animate)`
(sets `pendingFrame`), `arToolkitContext.update(...)` (the library sets the
camera's visibility from the detection result `detected`),
`scene.visible = camera.visible`, and one `renderer.render` call (logged in
`renders` with the scene visibility at that call). -/
def animateStep (detected : Bool) (s : Inst) : Inst :=
  match s.arToolkitSource with
  | none => s
  | some src =>
    if s.isMounted && src.ready then
      { s with
        pendingFrame := true
        cameraVisible := detected
        sceneVisible := detected
        renders := s.renders ++ [detected] }
    else s

/-- Lines 98–165 of `ARScene.tsx`: the synchronous block of `initAR` after
both scripts resolved and the guards passed.  Builds scene and camera (fresh
`THREE` objects are visible), the renderer, the toolkit source and context,
registers `onResize` on the window, calls `arToolkitSource.init` and
`arToolkitContext.init` (their callbacks become pending), attaches the
marker controls, starts the model load, adds the lights, and finally calls
`animate()` once.  The fresh source's `ready` flag is `false`: the webcam
callback cannot run inside this same synchronous block. -/
def initMainBlock (s : Inst) : Inst :=
  animateStep false
    { s with
      phase := .ready
      renderer := some { disposed := false }
      arToolkitSource := some { ready := false, hasStream := false, tracksLive := false }
      arToolkitContext := true
      pendingFrame := false
      pendingSourceInit := true
      pendingContextInit := true
      pendingModelLoad := true
      resizeListener := true
      markerControlsAttached := true
      modelAdded := false
      lightsAdded := true
      cameraVisible := true
      sceneVisible := true }

/-- Resolution of the first `await loadScript(...)` (ar.js): on success the
second `loadScript` is issued (no check between the two awaits); on failure
the `catch` logs the error and returns from `initAR`. -/
def script1Step (ok : Bool) (s : Inst) : Inst :=
  if s.phase = .loadingScript1 then
    if ok then { s with phase := .loadingScript2 }
    else { s with phase := .abortedScriptError, errorsLogged := s.errorsLogged + 1 }
  else s

/-- Resolution of the second `await loadScript(...)` (ar-threex.js),
returning the new closure state and whether the `data-initialized` marker
was written.  In source order: the `catch` on failure; the
`!isMounted || !canvasRef.current` early return; the `THREEx` entry-point
check (logged); only then `setAttribute('data-initialized', 'true')`
followed by the main setup block. -/
def script2Step (ok : Bool) (entry : Bool) (s : Inst) : Inst × Bool :=
  if s.phase = .loadingScript2 then
    if ok = false then
      ({ s with phase := .abortedScriptError, errorsLogged := s.errorsLogged + 1 }, false)
    else if s.isMounted = false then
      ({ s with phase := .abortedUnmounted }, false)
    else if entry = false then
      ({ s with phase := .abortedNoEntry, errorsLogged := s.errorsLogged + 1 }, false)
    else
      (initMainBlock s, true)
  else (s, false)

/-- The `arToolkitSource.init` completion (webcam acquired): the stream is
attached to the video element with a live track, `ready` becomes true, and
the registered callback runs `setTimeout(onResize, 500)`.  The callback does
not consult `isMounted`. -/
def sourceInitStep (s : Inst) : Inst :=
  if s.pendingSourceInit then
    match s.arToolkitSource with
    | none => s
    | some _ =>
      { s with
        pendingSourceInit := false
        arToolkitSource := some { ready := true, hasStream := true, tracksLive := true }
        pendingTimeout := true }
  else s

/-- The `arToolkitContext.init` completion callback, line 134:
`camera.projectionMatrix.copy(arToolkitContext.getProjectionMatrix())`.
The callback does not consult `isMounted`. -/
def contextInitStep (s : Inst) : Inst :=
  if s.pendingContextInit then
    { s with pendingContextInit := false, projectionCopies := s.projectionCopies + 1 }
  else s

/-- Resolution of `loader.load('/my-model.glb', …)`: on success the model is
scaled, positioned and added under `markerRoot`; on failure the error
callback logs.  Neither callback consults `isMounted`. -/
def modelLoadStep (ok : Bool) (s : Inst) : Inst :=
  if s.pendingModelLoad then
    if ok then { s with pendingModelLoad := false, modelAdded := true }
    else { s with pendingModelLoad := false, errorsLogged := s.errorsLogged + 1 }
  else s

/-- The `setTimeout(onResize, 500)` firing: one `onResize` execution. -/
def timeoutStep (s : Inst) : Inst :=
  if s.pendingTimeout then
    { s with pendingTimeout := false, resizeRuns := s.resizeRuns + 1 }
  else s

/-- Delivery of a window `resize` event to one instance: the listener runs
`onResize` when it was registered (listeners are never removed, so this is
independent of `isMounted`). -/
def resizeDispatch (s : Inst) : Inst :=
  if s.resizeListener then { s with resizeRuns := s.resizeRuns + 1 } else s

/-- A `requestAnimationFrame` callback firing: only possible when one is
pending; it is consumed and `animate` runs with the frame's detection
result. -/
def frameStep (detected : Bool) (s : Inst) : Inst :=
  if s.pendingFrame then animateStep detected { s with pendingFrame := false } else s

/-- The effect cleanup, lines 170–184: `isMounted = false`;
`cancelAnimationFrame(animationFrameId)` (removes the pending frame callback
if any); `arToolkitSource?.domElement` / `video?.srcObject` — when a stream
was attached, stop every media track; `renderer?.dispose()`.  (The
`removeAttribute('data-initialized')` acts on the shared surface and is
modelled at the `World` level.) -/
def cleanup (s : Inst) : Inst :=
  let s1 := { s with isMounted := false, pendingFrame := false }
  let s2 :=
    match s1.arToolkitSource with
    | none => s1
    | some src =>
      if src.hasStream then
        { s1 with arToolkitSource := some { src with tracksLive := false } }
      else s1
  match s2.renderer with
  | none => s2
  | some _ => { s2 with renderer := some { disposed := true } }

/-- The cleanup again, with JavaScript's exception behaviour made explicit:
every handle access in the cleanup is optional-chained (`arToolkitSource?.`,
`video?.`, `renderer?.`) and `cancelAnimationFrame` accepts `undefined`, so
each `none` branch short-circuits instead of raising a `TypeError`, and no
`Except.error` is ever produced. -/
def cleanupE (s : Inst) : Except String Inst := do
  let s1 := { s with isMounted := false, pendingFrame := false }
  let s2 ←
    match s1.arToolkitSource with
    | none => pure s1
    | some src =>
      if src.hasStream then
        pure { s1 with arToolkitSource := some { src with tracksLive := false } }
      else pure s1
  match s2.renderer with
  | none => pure s2
  | some _ => pure { s2 with renderer := some { disposed := true } }

/-- The shared state: the canvas's `data-initialized` attribute and the
closure states of the effect runs performed so far on that surface. -/
structure World where
  surfaceInit : Bool
  insts : List Inst
  deriving DecidableEq, Repr

/-- Before any effect has run: attribute absent, no instances. -/
def World.start : World := { surfaceInit := false, insts := [] }

/-- Apply `f` to the element at index `i`, when it exists. -/
def modifyIdx : List Inst → Nat → (Inst → Inst) → List Inst
  | [], _, _ => []
  | x :: xs, 0, f => f x :: xs
  | x :: xs, n + 1, f => x :: modifyIdx xs n f

/-- The events the environment can deliver.  `mount` is one run of the
`useEffect` body; `unmount i` is React invoking instance `i`'s cleanup; the
`…Resolved` events are the asynchronous completions addressed to the
instance whose closure registered them; `frame` carries whether the marker
is detected on that frame. -/
inductive Ev where
  | mount
  | unmount (i : Nat)
  | script1Resolved (i : Nat) (ok : Bool)
  | script2Resolved (i : Nat) (ok : Bool) (entry : Bool)
  | sourceInitResolved (i : Nat)
  | contextInitResolved (i : Nat)
  | modelLoadResolved (i : Nat) (ok : Bool)
  | timeoutFired (i : Nat)
  | windowResize
  | frame (i : Nat) (detected : Bool)
  deriving DecidableEq, Repr

/-- One atomic turn of the event loop.  `mount` runs the effect body: the
`data-initialized` guard is checked synchronously and, when set, the effect
returns before creating any state; otherwise a fresh closure starts
`initAR`.  `unmount` runs the cleanup, which also executes
`canvasRef.current?.removeAttribute('data-initialized')` on the shared
surface.  `script2Resolved` consults the addressed closure to decide whether
the marker is written. -/
def step (w : World) (e : Ev) : World :=
  match e with
  | .mount =>
    if w.surfaceInit then w
    else { w with insts := w.insts ++ [newInst] }
  | .unmount i =>
    { surfaceInit := false, insts := modifyIdx w.insts i cleanup }
  | .script1Resolved i ok =>
    { w with insts := modifyIdx w.insts i (script1Step ok) }
  | .script2Resolved i ok entry =>
    match w.insts.get? i with
    | none => w
    | some s =>
      let p := script2Step ok entry s
      { surfaceInit := w.surfaceInit || p.2
        insts := modifyIdx w.insts i (fun _ => p.1) }
  | .sourceInitResolved i =>
    { w with insts := modifyIdx w.insts i sourceInitStep }
  | .contextInitResolved i =>
    { w with insts := modifyIdx w.insts i contextInitStep }
  | .modelLoadResolved i ok =>
    { w with insts := modifyIdx w.insts i (modelLoadStep ok) }
  | .timeoutFired i =>
    { w with insts := modifyIdx w.insts i timeoutStep }
  | .windowResize =>
    { w with insts := w.insts.map resizeDispatch }
  | .frame i detected =>
    { w with insts := modifyIdx w.insts i (frameStep detected) }

/-- Run an event list from the fresh surface. -/
def run (evs : List Ev) : World := evs.foldl step World.start

/-- The phase of instance `i`, when it exists. -/
def phaseOf (w : World) (i : Nat) : Option Phase := (w.insts.get? i).map Inst.phase

/-- An instance whose initialization sequence is still running or has
completed into a live session: the two script-load suspensions and the
post-setup state. -/
def initOrActive (s : Inst) : Bool :=
  match s.phase with
  | .loadingScript1 => true
  | .loadingScript2 => true
  | .ready => true
  | _ => false

/-- How many sessions on the surface are initializing or active. -/
def liveSessions (w : World) : Nat := (w.insts.filter initOrActive).length

/-- Whether the instance still owns a live camera media track. -/
def hasActiveTrack (s : Inst) : Bool :=
  match s.arToolkitSource with
  | none => false
  | some src => src.hasStream && src.tracksLive

/-- Whether the renderer's graphics resources are released: either it was
never created, or `dispose()` has been called on it. -/
def rendererReleased (s : Inst) : Bool :=
  match s.renderer with
  | none => true
  | some r => r.disposed

/-- Steps (b)–(j) of the spec's mount sequence, as observables of one
instance: renderer built, toolkit source and context constructed, their
completion callbacks pending, the model load pending, the resize handler
registered, marker controls attached, lights added. -/
def stepsScheduled (s : Inst) : Bool :=
  s.renderer.isSome && s.arToolkitSource.isSome && s.arToolkitContext &&
    s.pendingSourceInit && s.pendingContextInit && s.pendingModelLoad &&
    s.resizeListener && s.markerControlsAttached && s.lightsAdded

end ARModel

namespace ARServer

/-- An HTTP response as produced by `server.js`: status code and body. -/
structure HttpResponse where
  statusCode : Nat
  body : String
  deriving DecidableEq, Repr

/-- The response built in the `catch` block of the request handler:
`res.statusCode = 500; res.end('internal server error')`. -/
def internalServerErrorResponse : HttpResponse :=
  { statusCode := 500, body := "internal server error" }

/-- The handler passed to `createServer` in `server.js`: inside `try`,
`parse(req.url, true)` and then `await handle(req, res, parsedUrl)`; any
error thrown by either is caught and converted to the generic 500 response.
The parse outcome and the framework's handling are opaque parameters; the
handler itself is a total function, so no exception propagates out of it. -/
def serverRequestHandler (parsed : Except String String)
    (handle : String → Except String HttpResponse) : HttpResponse :=
  match parsed.bind handle with
  | .ok r => r
  | .error _ => internalServerErrorResponse

end ARServer

namespace ARModel

/-! ## Basic lemmas about the list machinery and the per-instance steps -/

theorem get?_modifyIdx (l : List Inst) (i j : Nat) (f : Inst → Inst) :
    (modifyIdx l i f).get? j = if j = i then (l.get? j).map f else l.get? j := by
  induction l generalizing i j with
  | nil => simp [modifyIdx]
  | cons x xs ih =>
    cases i with
    | zero =>
      cases j with
      | zero => simp [modifyIdx]
      | succ j => simp [modifyIdx]
    | succ i =>
      cases j with
      | zero => simp [modifyIdx]
      | succ j => simpa [modifyIdx] using ih i j

theorem mem_modifyIdx {l : List Inst} {i : Nat} {f : Inst → Inst} {y : Inst}
    (h : y ∈ modifyIdx l i f) : y ∈ l ∨ ∃ x, x ∈ l ∧ y = f x := by
  induction l generalizing i with
  | nil => simp [modifyIdx] at h
  | cons x xs ih =>
    cases i with
    | zero =>
      rcases List.mem_cons.mp h with h | h
      · exact Or.inr ⟨x, List.mem_cons_self x xs, h⟩
      · exact Or.inl (List.mem_cons_of_mem x h)
    | succ i =>
      rcases List.mem_cons.mp h with h | h
      · exact Or.inl (h ▸ List.mem_cons_self x xs)
      · rcases ih h with h | ⟨z, hz, hy⟩
        · exact Or.inl (List.mem_cons_of_mem x h)
        · exact Or.inr ⟨z, List.mem_cons_of_mem x hz, hy⟩

theorem get?_append_one (l : List Inst) (x : Inst) (i : Nat) :
    (l ++ [x]).get? i = l.get? i ∨
      (l.get? i = none ∧ (l ++ [x]).get? i = some x) := by
  induction l generalizing i with
  | nil => cases i <;> simp
  | cons a as ih =>
    cases i with
    | zero => simp
    | succ i => simpa using ih i

theorem get?_map_inst (l : List Inst) (f : Inst → Inst) (i : Nat) :
    (l.map f).get? i = (l.get? i).map f := by
  induction l generalizing i with
  | nil => rfl
  | cons a as ih => cases i with
    | zero => rfl
    | succ i => exact ih i

theorem cleanup_phase (s : Inst) : (cleanup s).phase = s.phase := by
  obtain ⟨m, ph, r, src, ctx, pf, psi, pci, pml, pt, rl, rr, pc, mca, ma, la, cv, sv, rd, el⟩ := s
  cases src with
  | none => cases r <;> rfl
  | some ss =>
    obtain ⟨a, b, c⟩ := ss
    cases b <;> cases r <;> rfl

theorem animateStep_phase (d : Bool) (s : Inst) : (animateStep d s).phase = s.phase := by
  unfold animateStep
  repeat' split
  all_goals rfl

theorem sourceInitStep_phase (s : Inst) : (sourceInitStep s).phase = s.phase := by
  unfold sourceInitStep
  repeat' split
  all_goals rfl

theorem contextInitStep_phase (s : Inst) : (contextInitStep s).phase = s.phase := by
  unfold contextInitStep
  split <;> rfl

theorem modelLoadStep_phase (ok : Bool) (s : Inst) : (modelLoadStep ok s).phase = s.phase := by
  unfold modelLoadStep
  repeat' split
  all_goals rfl

theorem timeoutStep_phase (s : Inst) : (timeoutStep s).phase = s.phase := by
  unfold timeoutStep
  split <;> rfl

theorem resizeDispatch_phase (s : Inst) : (resizeDispatch s).phase = s.phase := by
  unfold resizeDispatch
  split <;> rfl

theorem frameStep_phase (d : Bool) (s : Inst) : (frameStep d s).phase = s.phase := by
  unfold frameStep
  split
  · exact animateStep_phase d _
  · rfl

theorem initMainBlock_phase (s : Inst) : (initMainBlock s).phase = .ready := by
  unfold initMainBlock
  rw [animateStep_phase]

end ARModel

namespace ARModel

theorem get?_mem_inst {l : List Inst} {i : Nat} {t : Inst} (h : l.get? i = some t) :
    t ∈ l := by
  induction l generalizing i with
  | nil => simp at h
  | cons a as ih =>
    cases i with
    | zero =>
      injection h with h
      exact h ▸ List.mem_cons_self a as
    | succ i => exact List.mem_cons_of_mem a (ih h)

theorem script1Step_phase_l2 {ok : Bool} {s : Inst}
    (h : (script1Step ok s).phase = .loadingScript2) :
    s.phase = .loadingScript2 ∨ (ok = true ∧ s.phase = .loadingScript1) := by
  by_cases h1 : s.phase = .loadingScript1
  · cases ok with
    | true => exact Or.inr ⟨rfl, h1⟩
    | false => simp [script1Step, h1] at h
  · left
    simpa [script1Step, h1] using h

theorem script1Step_abort_absorb {ok : Bool} {s : Inst}
    (h : s.phase = .abortedScriptError) :
    (script1Step ok s).phase = .abortedScriptError := by
  simp [script1Step, h]

theorem script1Step_fail {s : Inst} (h : s.phase = .loadingScript1) :
    script1Step false s =
      { s with phase := .abortedScriptError, errorsLogged := s.errorsLogged + 1 } := by
  simp [script1Step, h]

theorem script2Step_snd_true {ok entry : Bool} {s : Inst}
    (h : (script2Step ok entry s).2 = true) :
    ok = true ∧ entry = true ∧ s.phase = .loadingScript2 ∧ s.isMounted = true ∧
      (script2Step ok entry s).1 = initMainBlock s := by
  by_cases h1 : s.phase = .loadingScript2
  · cases ok with
    | false => simp [script2Step, h1] at h
    | true =>
      cases hm : s.isMounted with
      | false => simp [script2Step, h1, hm] at h
      | true =>
        cases entry with
        | false => simp [script2Step, h1, hm] at h
        | true => exact ⟨rfl, rfl, h1, rfl, by simp [script2Step, h1, hm]⟩
  · simp [script2Step, h1] at h

theorem script2Step_abort_absorb {ok entry : Bool} {s : Inst}
    (h : s.phase = .abortedScriptError) : script2Step ok entry s = (s, false) := by
  simp [script2Step, h]

theorem script2Step_fst_phase_l2 {ok entry : Bool} {s : Inst}
    (h : (script2Step ok entry s).1.phase = .loadingScript2) :
    s.phase = .loadingScript2 := by
  by_cases h1 : s.phase = .loadingScript2
  · exact h1
  · simp [script2Step, h1] at h

theorem script2Step_unmounted {s : Inst} (h1 : s.phase = .loadingScript2)
    (h2 : s.isMounted = false) :
    script2Step true true s = ({ s with phase := .abortedUnmounted }, false) := by
  simp [script2Step, h1, h2]

theorem initMainBlock_eq (s : Inst) :
    initMainBlock s =
      { s with
        phase := .ready
        renderer := some { disposed := false }
        arToolkitSource := some { ready := false, hasStream := false, tracksLive := false }
        arToolkitContext := true
        pendingFrame := false
        pendingSourceInit := true
        pendingContextInit := true
        pendingModelLoad := true
        resizeListener := true
        markerControlsAttached := true
        modelAdded := false
        lightsAdded := true
        cameraVisible := true
        sceneVisible := true } := by
  simp [initMainBlock, animateStep]

theorem stepsScheduled_initMainBlock (s : Inst) :
    stepsScheduled (initMainBlock s) = true := by
  simp [initMainBlock_eq, stepsScheduled]

/-- A session that has never had a frame rendered and has no frame callback
scheduled. -/
def frameless (s : Inst) : Prop := s.renders = [] ∧ s.pendingFrame = false

theorem frameless_newInst : frameless newInst := ⟨rfl, rfl⟩

theorem frameless_cleanup {s : Inst} (h : frameless s) : frameless (cleanup s) := by
  obtain ⟨m, ph, r, src, ctx, pf, psi, pci, pml, pt, rl, rr, pc, mca, ma, la, cv, sv, rd, el⟩ := s
  obtain ⟨h1, h2⟩ := h
  refine ⟨?_, ?_⟩ <;>
  · cases src with
    | none => cases r <;> simp_all [cleanup, frameless]
    | some ss =>
      obtain ⟨a, b, c⟩ := ss
      cases b <;> cases r <;> simp_all [cleanup, frameless]

theorem frameless_script1Step {ok : Bool} {s : Inst} (h : frameless s) :
    frameless (script1Step ok s) := by
  obtain ⟨h1, h2⟩ := h
  unfold script1Step
  repeat' split
  all_goals exact ⟨h1, h2⟩

theorem frameless_initMainBlock {s : Inst} (h : frameless s) :
    frameless (initMainBlock s) := by
  obtain ⟨h1, h2⟩ := h
  rw [frameless, initMainBlock_eq]
  exact ⟨h1, rfl⟩

theorem frameless_script2Step {ok entry : Bool} {s : Inst} (h : frameless s) :
    frameless (script2Step ok entry s).1 := by
  unfold script2Step
  repeat' split
  all_goals simp only []
  · exact ⟨h.1, h.2⟩
  · exact ⟨h.1, h.2⟩
  · exact ⟨h.1, h.2⟩
  · exact frameless_initMainBlock h
  · exact h

theorem frameless_sourceInitStep {s : Inst} (h : frameless s) :
    frameless (sourceInitStep s) := by
  unfold sourceInitStep
  repeat' split
  all_goals exact ⟨h.1, h.2⟩

theorem frameless_contextInitStep {s : Inst} (h : frameless s) :
    frameless (contextInitStep s) := by
  unfold contextInitStep
  split
  all_goals exact ⟨h.1, h.2⟩

theorem frameless_modelLoadStep {ok : Bool} {s : Inst} (h : frameless s) :
    frameless (modelLoadStep ok s) := by
  unfold modelLoadStep
  repeat' split
  all_goals exact ⟨h.1, h.2⟩

theorem frameless_timeoutStep {s : Inst} (h : frameless s) :
    frameless (timeoutStep s) := by
  unfold timeoutStep
  split
  all_goals exact ⟨h.1, h.2⟩

theorem frameless_resizeDispatch {s : Inst} (h : frameless s) :
    frameless (resizeDispatch s) := by
  unfold resizeDispatch
  split
  all_goals exact ⟨h.1, h.2⟩

theorem frameless_frameStep {d : Bool} {s : Inst} (h : frameless s) :
    frameless (frameStep d s) := by
  unfold frameStep
  rw [h.2]
  simp only [Bool.false_eq_true, if_false]
  exact h

end ARModel

namespace ARModel

theorem phaseOf_modify_preserved {l : List Inst} {j i : Nat} {f : Inst → Inst}
    (hf : ∀ s, (f s).phase = s.phase) :
    ((modifyIdx l j f).get? i).map Inst.phase = (l.get? i).map Inst.phase := by
  rw [get?_modifyIdx]
  split
  · cases h : l.get? i <;> simp [hf]
  · rfl

theorem phaseOf_map_preserved {l : List Inst} {i : Nat} {f : Inst → Inst}
    (hf : ∀ s, (f s).phase = s.phase) :
    ((l.map f).get? i).map Inst.phase = (l.get? i).map Inst.phase := by
  rw [get?_map_inst]
  cases h : l.get? i <;> simp [hf]

theorem forall_mem_modifyIdx {P : Inst → Prop} {l : List Inst} {i : Nat} {f : Inst → Inst}
    (hl : ∀ s ∈ l, P s) (hf : ∀ s, P s → P (f s)) :
    ∀ y ∈ modifyIdx l i f, P y := by
  intro y hy
  rcases mem_modifyIdx hy with h | ⟨x, hx, hxx⟩
  · exact hl y h
  · exact hxx ▸ hf x (hl x hx)

theorem frameless_step {w : World} (e : Ev) (h : ∀ s ∈ w.insts, frameless s) :
    ∀ s ∈ (step w e).insts, frameless s := by
  cases e with
  | mount =>
    intro s hs
    simp only [step] at hs
    split at hs
    · exact h s hs
    · rcases List.mem_append.mp hs with h1 | h1
      · exact h s h1
      · rw [List.mem_singleton.mp h1]
        exact frameless_newInst
  | unmount i =>
    exact forall_mem_modifyIdx h (fun t ht => frameless_cleanup ht)
  | script1Resolved i ok =>
    exact forall_mem_modifyIdx h (fun t ht => frameless_script1Step ht)
  | script2Resolved i ok entry =>
    intro s hs
    simp only [step] at hs
    cases hg : w.insts.get? i with
    | none =>
      rw [hg] at hs
      exact h s hs
    | some t =>
      rw [hg] at hs
      dsimp only at hs
      rcases mem_modifyIdx hs with h1 | ⟨x, hx, hxx⟩
      · exact h s h1
      · rw [hxx]
        exact frameless_script2Step (h t (get?_mem_inst hg))
  | sourceInitResolved i =>
    exact forall_mem_modifyIdx h (fun t ht => frameless_sourceInitStep ht)
  | contextInitResolved i =>
    exact forall_mem_modifyIdx h (fun t ht => frameless_contextInitStep ht)
  | modelLoadResolved i ok =>
    exact forall_mem_modifyIdx h (fun t ht => frameless_modelLoadStep ht)
  | timeoutFired i =>
    exact forall_mem_modifyIdx h (fun t ht => frameless_timeoutStep ht)
  | windowResize =>
    intro s hs
    simp only [step] at hs
    rcases List.mem_map.mp hs with ⟨x, hx, hxx⟩
    rw [← hxx]
    exact frameless_resizeDispatch (h x hx)
  | frame i d =>
    exact forall_mem_modifyIdx h (fun t ht => frameless_frameStep ht)

theorem frameless_foldl (evs : List Ev) :
    ∀ w : World, (∀ s ∈ w.insts, frameless s) →
      ∀ s ∈ (evs.foldl step w).insts, frameless s := by
  induction evs with
  | nil => exact fun w hw => hw
  | cons e evs ih => exact fun w hw => ih (step w e) (frameless_step e hw)

theorem frameless_run (evs : List Ev) : ∀ s ∈ (run evs).insts, frameless s :=
  frameless_foldl evs World.start (by intro s hs; simp [World.start] at hs)

theorem step_script2_none (w : World) (i : Nat) (ok entry : Bool)
    (hg : w.insts.get? i = none) :
    step w (Ev.script2Resolved i ok entry) = w := by
  simp only [step, hg]

theorem step_script2_some (w : World) (i : Nat) (ok entry : Bool) (t : Inst)
    (hg : w.insts.get? i = some t) :
    step w (Ev.script2Resolved i ok entry) =
      { surfaceInit := w.surfaceInit || (script2Step ok entry t).2
        insts := modifyIdx w.insts i (fun _ => (script2Step ok entry t).1) } := by
  simp only [step, hg]

theorem step_surfaceInit_cases (w : World) (e : Ev) (h : (step w e).surfaceInit = true) :
    w.surfaceInit = true ∨ ∃ i, e = Ev.script2Resolved i true true := by
  cases e with
  | mount =>
    left
    simp only [step] at h
    split at h
    · exact h
    · exact h
  | unmount i => simp [step] at h
  | script1Resolved i ok => exact Or.inl h
  | script2Resolved i ok entry =>
    simp only [step] at h
    cases hg : w.insts.get? i with
    | none =>
      rw [hg] at h
      exact Or.inl h
    | some t =>
      rw [hg] at h
      dsimp only at h
      simp only [Bool.or_eq_true] at h
      rcases h with h | h
      · exact Or.inl h
      · obtain ⟨hok, hentry, -, -, -⟩ := script2Step_snd_true h
        subst hok
        subst hentry
        exact Or.inr ⟨i, rfl⟩
  | sourceInitResolved i => exact Or.inl h
  | contextInitResolved i => exact Or.inl h
  | modelLoadResolved i ok => exact Or.inl h
  | timeoutFired i => exact Or.inl h
  | windowResize => exact Or.inl h
  | frame i d => exact Or.inl h

theorem marker_write_analysis (w : World) (i : Nat) (ok entry : Bool)
    (h0 : w.surfaceInit = false)
    (h : (step w (Ev.script2Resolved i ok entry)).surfaceInit = true) :
    ok = true ∧ entry = true ∧ phaseOf w i = some .loadingScript2 ∧
      phaseOf (step w (Ev.script2Resolved i ok entry)) i = some .ready ∧
      ((step w (Ev.script2Resolved i ok entry)).insts.get? i).map stepsScheduled =
        some true := by
  cases hg : w.insts.get? i with
  | none =>
    rw [step_script2_none w i ok entry hg] at h
    exact absurd h (by simp [h0])
  | some t =>
    have hstep := step_script2_some w i ok entry t hg
    rw [hstep] at h
    dsimp only at h
    rw [h0] at h
    simp only [Bool.false_or] at h
    obtain ⟨hok, hentry, hph, hm, hfst⟩ := script2Step_snd_true h
    subst hok
    subst hentry
    refine ⟨rfl, rfl, ?_, ?_, ?_⟩
    · rw [phaseOf, hg]
      simp [hph]
    · rw [hstep, phaseOf]
      dsimp only
      rw [get?_modifyIdx]
      simp [hfst, initMainBlock_phase, hg]
      exact ⟨t, by simpa using hg⟩
    · rw [hstep]
      dsimp only
      rw [get?_modifyIdx]
      simp [hfst, stepsScheduled_initMainBlock, hg]
      exact ⟨t, by simpa using hg⟩

end ARModel

namespace ARModel

theorem script2_phase_origin (w : World) (e : Ev) (i : Nat)
    (h : phaseOf (step w e) i = some .loadingScript2) :
    phaseOf w i = some .loadingScript2 ∨
      (e = Ev.script1Resolved i true ∧ phaseOf w i = some .loadingScript1) := by
  cases e with
  | mount =>
    left
    simp only [step, phaseOf] at h ⊢
    split at h
    · exact h
    · rcases get?_append_one w.insts newInst i with hap | ⟨h1, h2⟩
      · rw [hap] at h
        exact h
      · rw [h2] at h
        simp [newInst] at h
  | unmount j =>
    left
    simp only [step, phaseOf] at h ⊢
    rw [phaseOf_modify_preserved cleanup_phase] at h
    exact h
  | script1Resolved j ok =>
    simp only [step, phaseOf] at h ⊢
    rw [get?_modifyIdx] at h
    by_cases hij : i = j
    · rw [if_pos hij] at h
      cases hg : w.insts.get? i with
      | none =>
        rw [hg] at h
        simp at h
      | some t =>
        rw [hg] at h
        simp only [Option.map_some'] at h
        rcases script1Step_phase_l2 (Option.some.inj h) with h2 | ⟨hok, h2⟩
        · left
          simp [h2]
        · right
          subst hok
          subst hij
          exact ⟨rfl, by simp [h2]⟩
    · rw [if_neg hij] at h
      exact Or.inl h
  | script2Resolved j ok entry =>
    left
    cases hg : w.insts.get? j with
    | none =>
      rw [step_script2_none w j ok entry hg] at h
      exact h
    | some t =>
      rw [step_script2_some w j ok entry t hg] at h
      simp only [phaseOf] at h ⊢
      rw [get?_modifyIdx] at h
      by_cases hij : i = j
      · rw [if_pos hij] at h
        subst hij
        rw [hg] at h
        simp only [Option.map_some'] at h
        have h2 := script2Step_fst_phase_l2 (Option.some.inj h)
        rw [hg]
        simp [h2]
      · rw [if_neg hij] at h
        exact h
  | sourceInitResolved j =>
    left
    simp only [step, phaseOf] at h ⊢
    rw [phaseOf_modify_preserved sourceInitStep_phase] at h
    exact h
  | contextInitResolved j =>
    left
    simp only [step, phaseOf] at h ⊢
    rw [phaseOf_modify_preserved contextInitStep_phase] at h
    exact h
  | modelLoadResolved j ok =>
    left
    simp only [step, phaseOf] at h ⊢
    rw [phaseOf_modify_preserved (modelLoadStep_phase ok)] at h
    exact h
  | timeoutFired j =>
    left
    simp only [step, phaseOf] at h ⊢
    rw [phaseOf_modify_preserved timeoutStep_phase] at h
    exact h
  | windowResize =>
    left
    simp only [step, phaseOf] at h ⊢
    rw [phaseOf_map_preserved resizeDispatch_phase] at h
    exact h
  | frame j d =>
    left
    simp only [step, phaseOf] at h ⊢
    rw [phaseOf_modify_preserved (frameStep_phase d)] at h
    exact h

theorem abortedScript_absorbed (w : World) (e : Ev) (i : Nat)
    (h : phaseOf w i = some .abortedScriptError) :
    phaseOf (step w e) i = some .abortedScriptError := by
  cases e with
  | mount =>
    simp only [step, phaseOf] at h ⊢
    split
    · exact h
    · rcases get?_append_one w.insts newInst i with hap | ⟨h1, h2⟩
      · rw [hap]
        exact h
      · rw [h1] at h
        simp at h
  | unmount j =>
    simp only [step, phaseOf] at h ⊢
    rw [phaseOf_modify_preserved cleanup_phase]
    exact h
  | script1Resolved j ok =>
    simp only [step, phaseOf] at h ⊢
    rw [get?_modifyIdx]
    by_cases hij : i = j
    · rw [if_pos hij]
      cases hg : w.insts.get? i with
      | none =>
        rw [hg] at h
        simp at h
      | some t =>
        rw [hg] at h
        simp only [Option.map_some'] at h
        simp [script1Step_abort_absorb (Option.some.inj h)]
    · rw [if_neg hij]
      exact h
  | script2Resolved j ok entry =>
    cases hg : w.insts.get? j with
    | none =>
      rw [step_script2_none w j ok entry hg]
      exact h
    | some t =>
      rw [step_script2_some w j ok entry t hg]
      simp only [phaseOf] at h ⊢
      rw [get?_modifyIdx]
      by_cases hij : i = j
      · rw [if_pos hij]
        subst hij
        rw [hg] at h ⊢
        simp only [Option.map_some'] at h
        simp [script2Step_abort_absorb (Option.some.inj h), Option.some.inj h]
      · rw [if_neg hij]
        exact h
  | sourceInitResolved j =>
    simp only [step, phaseOf] at h ⊢
    rw [phaseOf_modify_preserved sourceInitStep_phase]
    exact h
  | contextInitResolved j =>
    simp only [step, phaseOf] at h ⊢
    rw [phaseOf_modify_preserved contextInitStep_phase]
    exact h
  | modelLoadResolved j ok =>
    simp only [step, phaseOf] at h ⊢
    rw [phaseOf_modify_preserved (modelLoadStep_phase ok)]
    exact h
  | timeoutFired j =>
    simp only [step, phaseOf] at h ⊢
    rw [phaseOf_modify_preserved timeoutStep_phase]
    exact h
  | windowResize =>
    simp only [step, phaseOf] at h ⊢
    rw [phaseOf_map_preserved resizeDispatch_phase]
    exact h
  | frame j d =>
    simp only [step, phaseOf] at h ⊢
    rw [phaseOf_modify_preserved (frameStep_phase d)]
    exact h

end ARModel

namespace ARModel

/-- C1: a mount notification on a surface that already carries the
data-initialized marker does nothing: the effect body returns at the guard,
no initialization sequence starts, and the whole world state — surface and
session state alike — is unchanged. -/
theorem mount_on_marked_surface_is_noop (w : World) (h : w.surfaceInit = true) :
    step w Ev.mount = w := by
  simp [step, h]

/-- Witness for C1 at a concrete marked world. -/
theorem mount_on_marked_surface_is_noop_w :
    step { surfaceInit := true, insts := [] } Ev.mount =
      { surfaceInit := true, insts := [] } :=
  mount_on_marked_surface_is_noop { surfaceInit := true, insts := [] } rfl

/-- C2: the cleanup is safe at every point of the mount sequence, whatever
the closure state is when unmount fires: it never throws (every handle
access is optional-chained, so `cleanupE` always returns `ok` of the
cleaned state), it clears the mounted flag, leaves no scheduled frame
callback, leaves no live camera media track, and the renderer is released
whenever one was created. -/
theorem cleanup_is_safe (s : Inst) :
    cleanupE s = Except.ok (cleanup s) ∧
    (cleanup s).isMounted = false ∧
    (cleanup s).pendingFrame = false ∧
    hasActiveTrack (cleanup s) = false ∧
    rendererReleased (cleanup s) = true := by
  obtain ⟨m, ph, r, src, ctx, pf, psi, pci, pml, pt, rl, rr, pc, mca, ma, la, cv, sv, rd, el⟩ := s
  refine ⟨?_, ?_, ?_, ?_, ?_⟩ <;>
  · cases src with
    | none => cases r <;> rfl
    | some ss =>
      obtain ⟨a, b, c⟩ := ss
      cases b <;> cases r <;> rfl

/-- C3 counterexample: after mount, unmount, mount, first-script-success —
the sequence React StrictMode produces — two sessions are initializing on
the one surface at once (the unmounted one is still loading its second
script, the new one its first), and after a single mount the surface marker
is still unset even though an initialization is running, refuting that the
guard is set synchronously at mount start. -/
theorem second_mount_during_first_load_cx :
    liveSessions (run [Ev.mount, Ev.unmount 0, Ev.mount, Ev.script1Resolved 0 true]) = 2 ∧
    (run [Ev.mount]).surfaceInit = false ∧
    phaseOf (run [Ev.mount]) 0 = some Phase.loadingScript1 := by
  decide

/-- C3 amended: the guard flag is checked synchronously at the start of
mount — a mount on a surface whose marker is set is a complete no-op — but
it is set only later, after the scripts load and the entry points verify:
the mount step itself never changes the marker, so a second mount beginning
while the first is still loading scripts does start a second script-load
sequence. -/
theorem guard_checked_at_mount_set_after_load :
    (∀ w : World, w.surfaceInit = true → step w Ev.mount = w) ∧
    (∀ w : World, (step w Ev.mount).surfaceInit = w.surfaceInit) := by
  constructor
  · intro w h
    simp [step, h]
  · intro w
    simp only [step]
    split
    · rfl
    · rfl

/-- Witness for the amended C3. -/
theorem guard_checked_at_mount_set_after_load_w :
    step { surfaceInit := true, insts := [newInst] } Ev.mount =
      { surfaceInit := true, insts := [newInst] } ∧
    (step World.start Ev.mount).surfaceInit = World.start.surfaceInit :=
  ⟨guard_checked_at_mount_set_after_load.1 { surfaceInit := true, insts := [newInst] } rfl,
   guard_checked_at_mount_set_after_load.2 World.start⟩

/-- C4: the data-initialized marker is written only by the resolution of
the second script load, with both loads succeeded and the entry points
present; in that very step the instance moves to the `ready` phase with
steps (b)–(j) performed or scheduled (renderer, source, context, their
pending completion callbacks, the pending model load, the resize handler,
the marker controls, the lights).  No other event — in particular no failed
script load and no missing-entry-point resolution — ever sets the marker. -/
theorem marker_only_after_script_load_success :
    (∀ (w : World) (e : Ev), (step w e).surfaceInit = true →
      w.surfaceInit = true ∨ ∃ i, e = Ev.script2Resolved i true true) ∧
    (∀ (w : World) (i : Nat) (ok entry : Bool), w.surfaceInit = false →
      (step w (Ev.script2Resolved i ok entry)).surfaceInit = true →
      ok = true ∧ entry = true ∧ phaseOf w i = some Phase.loadingScript2 ∧
        phaseOf (step w (Ev.script2Resolved i ok entry)) i = some Phase.ready ∧
        ((step w (Ev.script2Resolved i ok entry)).insts.get? i).map stepsScheduled =
          some true) :=
  ⟨step_surfaceInit_cases, marker_write_analysis⟩

/-- Witness for C4 on the concrete successful trace. -/
theorem marker_only_after_script_load_success_w :
    true = true ∧ true = true ∧
    phaseOf (run [Ev.mount, Ev.script1Resolved 0 true]) 0 = some Phase.loadingScript2 ∧
    phaseOf (step (run [Ev.mount, Ev.script1Resolved 0 true]) (Ev.script2Resolved 0 true true)) 0 =
      some Phase.ready ∧
    ((step (run [Ev.mount, Ev.script1Resolved 0 true])
        (Ev.script2Resolved 0 true true)).insts.get? 0).map stepsScheduled = some true :=
  marker_only_after_script_load_success.2 (run [Ev.mount, Ev.script1Resolved 0 true]) 0
    true true (by decide) (by decide)

/-- C5 counterexample: on the trace mount, both scripts resolve, unmount,
then the context-init callback and the model load resolve — the torn-down
session still receives the projection-matrix copy and the model is still
added under the anchor group, so the late resolutions did not check the
mounted flag as claimed. -/
theorem late_loads_mutate_after_unmount_cx :
    ((run [Ev.mount, Ev.script1Resolved 0 true, Ev.script2Resolved 0 true true, Ev.unmount 0,
        Ev.contextInitResolved 0, Ev.modelLoadResolved 0 true]).insts.get? 0).map
      (fun s => (s.isMounted, s.projectionCopies, s.modelAdded)) = some (false, 1, true) := by
  decide

/-- C5 amended: only the script-load continuation checks the mounted flag —
resolving the second script on an unmounted instance aborts without
touching any resource — while the tracking-source-init, tracking-context-init
and model-load callbacks do not consult it: resolving after unmount they
still attach the webcam stream and schedule the deferred resize, copy the
projection matrix into the camera, and add the model under the anchor
group. -/
theorem async_callbacks_skip_mounted_check :
    (∀ s : Inst, s.phase = Phase.loadingScript2 → s.isMounted = false →
      script2Step true true s = ({ s with phase := Phase.abortedUnmounted }, false)) ∧
    (∀ s : Inst, s.isMounted = false → s.pendingContextInit = true →
      contextInitStep s =
        { s with pendingContextInit := false, projectionCopies := s.projectionCopies + 1 }) ∧
    (∀ s : Inst, s.isMounted = false → s.pendingModelLoad = true →
      modelLoadStep true s = { s with pendingModelLoad := false, modelAdded := true }) ∧
    (∀ (s : Inst) (src : SourceState), s.isMounted = false → s.pendingSourceInit = true →
      s.arToolkitSource = some src →
      sourceInitStep s =
        { s with
          pendingSourceInit := false
          arToolkitSource := some { ready := true, hasStream := true, tracksLive := true }
          pendingTimeout := true }) := by
  refine ⟨?_, ?_, ?_, ?_⟩
  · intro s h1 h2
    exact script2Step_unmounted h1 h2
  · intro s h1 h2
    simp [contextInitStep, h2]
  · intro s h1 h2
    simp [modelLoadStep, h2]
  · intro s src h1 h2 h3
    simp [sourceInitStep, h2, h3]

/-- Witness for the amended C5 at concrete unmounted states. -/
theorem async_callbacks_skip_mounted_check_w :
    script2Step true true { newInst with isMounted := false, phase := Phase.loadingScript2 } =
      ({ newInst with isMounted := false, phase := Phase.abortedUnmounted }, false) ∧
    contextInitStep (cleanup (initMainBlock newInst)) =
      { cleanup (initMainBlock newInst) with
        pendingContextInit := false
        projectionCopies := (cleanup (initMainBlock newInst)).projectionCopies + 1 } ∧
    modelLoadStep true (cleanup (initMainBlock newInst)) =
      { cleanup (initMainBlock newInst) with pendingModelLoad := false, modelAdded := true } ∧
    sourceInitStep (cleanup (initMainBlock newInst)) =
      { cleanup (initMainBlock newInst) with
        pendingSourceInit := false
        arToolkitSource := some { ready := true, hasStream := true, tracksLive := true }
        pendingTimeout := true } :=
  ⟨async_callbacks_skip_mounted_check.1
      { newInst with isMounted := false, phase := Phase.loadingScript2 } rfl rfl,
   async_callbacks_skip_mounted_check.2.1 (cleanup (initMainBlock newInst))
     (by decide) (by decide),
   async_callbacks_skip_mounted_check.2.2.1 (cleanup (initMainBlock newInst))
     (by decide) (by decide),
   async_callbacks_skip_mounted_check.2.2.2 (cleanup (initMainBlock newInst))
     { ready := false, hasStream := false, tracksLive := false }
     (by decide) (by decide) (by decide)⟩

/-- C6: on every frame the render loop produces — a pass of `animate` past
its guard — the context update sets the camera visibility to the frame's
detection result, the scene visibility is assigned from the camera
visibility, and the render call is issued with exactly that scene
visibility: false when no marker is detected, true otherwise. -/
theorem frame_scene_visibility_mirrors_camera (s : Inst) (src : SourceState) (d : Bool)
    (hsrc : s.arToolkitSource = some src) (hm : s.isMounted = true) (hr : src.ready = true) :
    (animateStep d s).cameraVisible = d ∧
    (animateStep d s).sceneVisible = (animateStep d s).cameraVisible ∧
    (animateStep d s).renders = s.renders ++ [(animateStep d s).sceneVisible] := by
  simp [animateStep, hsrc, hm, hr]

/-- Witness for C6 in the mounted, source-ready state. -/
theorem frame_scene_visibility_mirrors_camera_w :
    (animateStep true (sourceInitStep (initMainBlock newInst))).cameraVisible = true ∧
    (animateStep true (sourceInitStep (initMainBlock newInst))).sceneVisible =
      (animateStep true (sourceInitStep (initMainBlock newInst))).cameraVisible ∧
    (animateStep true (sourceInitStep (initMainBlock newInst))).renders =
      (sourceInitStep (initMainBlock newInst)).renders ++
        [(animateStep true (sourceInitStep (initMainBlock newInst))).sceneVisible] :=
  frame_scene_visibility_mirrors_camera (sourceInitStep (initMainBlock newInst))
    { ready := true, hasStream := true, tracksLive := true } true
    (by decide) (by decide) (by decide)

/-- C7, what the code actually does: in every execution the render loop
never produces a frame and no frame callback is ever pending.  `animate` is
invoked exactly once, synchronously at the end of the setup block, while the
freshly constructed tracking source is not yet ready, and its guard returns
without calling `requestAnimationFrame`; nothing re-invokes it when the
source later becomes ready, so the loop is dead in particular in the
executions the claim describes (model load failed, source ready). -/
theorem render_loop_never_produces_frames (evs : List Ev) (s : Inst)
    (h : s ∈ (run evs).insts) : s.renders = [] ∧ s.pendingFrame = false :=
  frameless_run evs s h

/-- Witness for C7 on the claim's own trace: scripts load, the model load
fails, the source becomes ready — and still no frame was rendered and none
is scheduled. -/
theorem render_loop_never_produces_frames_w :
    (sourceInitStep (modelLoadStep false (initMainBlock (script1Step true newInst)))).renders =
      [] ∧
    (sourceInitStep (modelLoadStep false
      (initMainBlock (script1Step true newInst)))).pendingFrame = false :=
  render_loop_never_produces_frames
    [Ev.mount, Ev.script1Resolved 0 true, Ev.script2Resolved 0 true true,
      Ev.modelLoadResolved 0 false, Ev.sourceInitResolved 0]
    (sourceInitStep (modelLoadStep false (initMainBlock (script1Step true newInst))))
    (by decide)

/-- C8: the two tracking-library scripts load strictly in sequence: an
instance enters the second-script-loading phase only through the successful
resolution of its own first script load; when the first load fails, the
error is logged and the instance moves to the aborted phase, which no later
event ever leaves — so the second script is never loaded and the
initialization stays aborted. -/
theorem scripts_load_strictly_in_sequence :
    (∀ (w : World) (e : Ev) (i : Nat),
      phaseOf (step w e) i = some Phase.loadingScript2 →
      phaseOf w i = some Phase.loadingScript2 ∨
        (e = Ev.script1Resolved i true ∧ phaseOf w i = some Phase.loadingScript1)) ∧
    (∀ s : Inst, s.phase = Phase.loadingScript1 →
      script1Step false s =
        { s with phase := Phase.abortedScriptError, errorsLogged := s.errorsLogged + 1 }) ∧
    (∀ (w : World) (e : Ev) (i : Nat),
      phaseOf w i = some Phase.abortedScriptError →
      phaseOf (step w e) i = some Phase.abortedScriptError) :=
  ⟨script2_phase_origin, fun _ h => script1Step_fail h, abortedScript_absorbed⟩

/-- Witness for C8 on concrete one-instance worlds. -/
theorem scripts_load_strictly_in_sequence_w :
    (phaseOf (run [Ev.mount]) 0 = some Phase.loadingScript2 ∨
      (Ev.script1Resolved 0 true = Ev.script1Resolved 0 true ∧
        phaseOf (run [Ev.mount]) 0 = some Phase.loadingScript1)) ∧
    script1Step false newInst =
      { newInst with
        phase := Phase.abortedScriptError
        errorsLogged := newInst.errorsLogged + 1 } ∧
    phaseOf (step (run [Ev.mount, Ev.script1Resolved 0 false]) Ev.windowResize) 0 =
      some Phase.abortedScriptError :=
  ⟨scripts_load_strictly_in_sequence.1 (run [Ev.mount]) (Ev.script1Resolved 0 true) 0
      (by decide),
   scripts_load_strictly_in_sequence.2.1 newInst (by decide),
   scripts_load_strictly_in_sequence.2.2 (run [Ev.mount, Ev.script1Resolved 0 false])
     Ev.windowResize 0 (by decide)⟩

/-- C10: the cleanup stops the camera tracks, cancels the pending frame
callback, releases the renderer, clears the mounted flag, and the unmount
step clears the surface's data-initialized marker — but it never touches
the resize listener: the handler registered on the window stays attached
after unmount. -/
theorem cleanup_keeps_resize_listener :
    (∀ s : Inst, (cleanup s).resizeListener = s.resizeListener ∧
      (cleanup s).isMounted = false ∧ (cleanup s).pendingFrame = false ∧
      hasActiveTrack (cleanup s) = false ∧ rendererReleased (cleanup s) = true) ∧
    (∀ (w : World) (i : Nat), (step w (Ev.unmount i)).surfaceInit = false) := by
  constructor
  · intro s
    obtain ⟨m, ph, r, src, ctx, pf, psi, pci, pml, pt, rl, rr, pc, mca, ma, la, cv, sv, rd, el⟩ := s
    refine ⟨?_, ?_, ?_, ?_, ?_⟩ <;>
    · cases src with
      | none => cases r <;> rfl
      | some ss =>
        obtain ⟨a, b, c⟩ := ss
        cases b <;> cases r <;> rfl
  · intro w i
    rfl

end ARModel

namespace ARServer

/-- C9: any error thrown while parsing the URL or while the framework
handles the request is caught at the top of the server's request handler
and converted into the generic 500 response (status 500, body
"internal server error"); the handler is a total function, so no exception
propagates out of it. -/
theorem server_errors_become_500 (parsed : Except String String)
    (handle : String → Except String HttpResponse) (msg : String)
    (h : parsed.bind handle = Except.error msg) :
    serverRequestHandler parsed handle = internalServerErrorResponse := by
  simp [serverRequestHandler, h]

/-- Witness for C9 at a concrete failing parse. -/
theorem server_errors_become_500_w :
    serverRequestHandler (Except.error "parse failure")
      (fun _ => Except.ok { statusCode := 200, body := "ok" }) =
      internalServerErrorResponse :=
  server_errors_become_500 (Except.error "parse failure")
    (fun _ => Except.ok { statusCode := 200, body := "ok" }) "parse failure" rfl

end ARServer
